import Mathlib

/-!
Verification of the livekit voice-agent repository (src/agent.py and src/_agent3.py)
against its natural-language specification.

The embedding models the transfer workflow of `Assistant` in src/agent.py as a pure
function over an explicit environment (environment variables, and whether the two
fallible external calls raise) that returns the updated per-session state together
with the ordered trace of observable effects of the run.
-/

/-- One observable effect of a run of the agent code.  `generateReply t` is a call to
`session.generate_reply(user_input=t)` (the agent speaking a message driven by `t`);
`sleep n` is `await asyncio.sleep(n)`; `readEnv n` is `os.getenv(n)`;
`constructClient c` is a successful `api.LiveKitAPI(...)` construction;
`transferRequest r` is the dispatch `transfer_sip_participant(r)`;
`terminateSession` would be a session teardown (never emitted by the transfer code). -/
inductive Event where
  | generateReply (userInput : String)
  | sleep (seconds : Nat)
  | logInfo (msg : String)
  | logDebug (msg : String)
  | logDebugRequest (participantIdentity roomName transferTo : String) (playDialtone : Bool)
  | logError (msg : String)
  | readEnv (name : String)
  | constructClient (url apiKey apiSecret : Option String)
  | transferRequest (participantIdentity roomName transferTo : String) (playDialtone : Bool)
  | terminateSession
  deriving DecidableEq, Repr

/-- The lazily-constructed telephony client (`api.LiveKitAPI(url, api_key, api_secret)`).
`os.getenv` returns `None` for a missing variable, hence the `Option String` fields. -/
structure LiveKitClient where
  url : Option String
  apiKey : Option String
  apiSecret : Option String
  deriving DecidableEq, Repr

/-- The per-session mutable state visible to `Assistant.transfer_call` through
`self.session.userdata`: the cached telephony client handle `livekit_api`
(`None` until first constructed), the room name `ctx.room.name`, and the
`selected_department` attribute set by the tool body. -/
structure UserData where
  livekit_api : Option LiveKitClient
  roomName : String
  selected_department : Option String
  deriving DecidableEq, Repr

/-- The external world of one run: the process environment (`os.getenv`), and whether
the two fallible external calls raise — `constructRaises` for `api.LiveKitAPI(...)`
and `transferRaises` for `transfer_sip_participant(...)`, each carrying the reason
string of the raised exception when it raises. -/
structure Env where
  getenv : String → Option String
  constructRaises : Option String
  transferRaises : Option String

/-- Render an `Option String` the way a Python f-string renders the value. -/
def optStr : Option String → String
  | none => "None"
  | some s => s

/-- The tail of the `try` block of `Assistant.transfer_call` (src/agent.py:111-120):
build the `TransferSIPParticipantRequest` from the identity argument, the session's
room name, the destination argument and `play_dialtone=True`; log it; dispatch it; on
acknowledgement log success.  Returns the events appended to `acc`, the (unchanged)
user data, and the exception raised by the dispatch, if any. -/
def transferDispatch (env : Env) (ud : UserData) (pid tto : String) (acc : List Event) :
    List Event × UserData × Option String :=
  match env.transferRaises with
  | some r =>
      (acc ++ [Event.logDebugRequest pid ud.roomName tto true,
               Event.transferRequest pid ud.roomName tto true], ud, some r)
  | none =>
      (acc ++ [Event.logDebugRequest pid ud.roomName tto true,
               Event.transferRequest pid ud.roomName tto true,
               Event.logInfo ("Successfully transferred participant " ++ pid ++ " to " ++ tto)],
       ud, none)

/-- The `try` block of `Assistant.transfer_call` (src/agent.py:98-120): when
`userdata.livekit_api` is falsy (None), read the three LiveKit credentials from the
environment, log, and construct and cache the client — `api.LiveKitAPI(...)` may
raise; then dispatch the transfer request. -/
def transferTry (env : Env) (ud : UserData) (pid tto : String) :
    List Event × UserData × Option String :=
  match ud.livekit_api with
  | some _ => transferDispatch env ud pid tto []
  | none =>
      let evs : List Event :=
        [Event.readEnv "LIVEKIT_URL", Event.readEnv "LIVEKIT_API_KEY",
         Event.readEnv "LIVEKIT_API_SECRET",
         Event.logDebug ("Initializing LiveKit API client with URL: "
           ++ optStr (env.getenv "LIVEKIT_URL"))]
      match env.constructRaises with
      | some r => (evs, ud, some r)
      | none =>
          let client : LiveKitClient :=
            { url := env.getenv "LIVEKIT_URL",
              apiKey := env.getenv "LIVEKIT_API_KEY",
              apiSecret := env.getenv "LIVEKIT_API_SECRET" }
          transferDispatch env { ud with livekit_api := some client } pid tto
            (evs ++ [Event.constructClient client.url client.apiKey client.apiSecret])

/-- The fallback apology spoken by the `except` handler of `Assistant.transfer_call`. -/
def fallbackText : String :=
  "Lo sentimos, no fue posible llevar a cabo la transferencia en estos momentos. Hay algo mas en lo que te pueda apoyar?"

/-- The outcome of one run of the SIP `transfer_call` as seen by its Python caller and
by an observer of its effects.  `caught` is the exception bound by
`except Exception as e` (None when the try block completed); `raised` is an exception
escaping to the caller; `retval` is the Python return value — the function is
annotated `-> None` and has no return statement, so it is always `()`. -/
structure RunResult where
  userdata : UserData
  events : List Event
  caught : Option String
  raised : Option String
  retval : Unit
  deriving Repr

/-- `Assistant.transfer_call(participant_identity, transfer_to)` (src/agent.py:88-124),
the SIP transfer method — the binding that survives the class body (see
`assistantClassDict`).  Logs the transfer intent, runs the try block, and on any
caught exception logs the failure and speaks the fallback apology; it never re-raises
and always returns None. -/
def transfer_call (env : Env) (ud : UserData) (pid tto : String) : RunResult :=
  let pre := Event.logInfo ("Transferring call for participant " ++ pid ++ " to " ++ tto)
  match transferTry env ud pid tto with
  | (evs, ud1, none) =>
      { userdata := ud1, events := pre :: evs, caught := none, raised := none, retval := () }
  | (evs, ud1, some r) =>
      { userdata := ud1,
        events := pre :: (evs ++
          [Event.logError ("Failed to transfer call: " ++ r),
           Event.generateReply fallbackText]),
        caught := some r, raised := none, retval := () }

/-- The announcement text produced by `Assistant._handle_transfer` (src/agent.py:82-84),
with the source's spelling kept verbatim. -/
def announcementText (department : String) : String :=
  "En un momento sera transferido al deparamento de " ++ department
    ++ ". Por favor, no cuelgue la llamada."

/-- `Assistant._handle_transfer(identity, transfer_number, department)`
(src/agent.py:71-86): speak the announcement naming the department, sleep 6 seconds,
then call the SIP `transfer_call`. -/
def handle_transfer (env : Env) (ud : UserData) (identity transferNumber department : String) :
    UserData × List Event :=
  let r := transfer_call env ud identity transferNumber
  (r.userdata, Event.generateReply (announcementText department) :: Event.sleep 6 :: r.events)

/-- The body of the `@function_tool` decorated `Assistant.transfer_call(self, ctx)`
(src/agent.py:57-68): reads the local participant's identity, fixes the destination
and the department name, records the department on the userdata, runs
`_handle_transfer`, and returns a confirmation string.  (This binding is shadowed in
the class body; see `assistantClassDict`.) -/
def transfer_call_tool (env : Env) (ud : UserData) (localIdentity : String) :
    UserData × List Event × String :=
  let transferNumber := "sip:5652917934@127.0.0.1:49999"
  let deptName := "Agente"
  let ud0 := { ud with selected_department := some deptName }
  let (ud1, evs) := handle_transfer env ud0 localIdentity transferNumber deptName
  (ud1, evs, "Transferring to " ++ deptName ++ " department.")

/-! ### The class body of `Assistant` as Python evaluates it

A Python class body executes its `def` statements in order into one namespace
dictionary; a later `def` with the same name overwrites the earlier binding.
`MethodDef` records, for each method, whether its stored value carries the
`function_tool` registration marker and its number of parameters besides `self`. -/

/-- One method binding produced by a `def` in the class body of `Assistant`:
its name, whether it is wrapped by the `@function_tool()` decorator, and its
arity excluding `self`. -/
structure MethodDef where
  name : String
  isFunctionTool : Bool
  arity : Nat
  deriving DecidableEq, Repr

/-- Dictionary assignment: bind `m.name` to `m`, overwriting any earlier binding. -/
def dictAssign (d : List (String × MethodDef)) (m : MethodDef) : List (String × MethodDef) :=
  (d.filter fun p => p.1 ≠ m.name) ++ [(m.name, m)]

/-- Execute a class body: perform the `def`s in source order. -/
def classBody (ms : List MethodDef) : List (String × MethodDef) :=
  ms.foldl dictAssign []

/-- The `def`s of `class Assistant` in src/agent.py, in source order: `__init__`,
`set_data`, `get_data`, the `@function_tool()` `transfer_call(self, ctx)` (line 57),
`_handle_transfer(self, identity, transfer_number, department)` (line 71), and the
plain `transfer_call(self, participant_identity, transfer_to)` (line 88). -/
def assistantMethods : List MethodDef :=
  [ { name := "__init__", isFunctionTool := false, arity := 0 },
    { name := "set_data", isFunctionTool := false, arity := 2 },
    { name := "get_data", isFunctionTool := false, arity := 2 },
    { name := "transfer_call", isFunctionTool := true, arity := 1 },
    { name := "_handle_transfer", isFunctionTool := false, arity := 3 },
    { name := "transfer_call", isFunctionTool := false, arity := 2 } ]

/-- The namespace dictionary of `class Assistant` after its body has executed. -/
def assistantClassDict : List (String × MethodDef) :=
  classBody assistantMethods

/-- Lookup of an attribute on the class dictionary. -/
def lookupMethod (d : List (String × MethodDef)) (n : String) : Option MethodDef :=
  (d.find? fun p => p.1 = n).map Prod.snd

/-- The names of the methods the agents framework registers as invocable tools:
those whose stored value carries the `function_tool` marker. -/
def registeredToolNames (d : List (String × MethodDef)) : List String :=
  (d.filter fun p => p.2.isFunctionTool).map Prod.fst

/-! ### The session data store (`Assistant.set_data` / `Assistant.get_data`) -/

/-- The `self.session_data` dictionary, as a partial map from keys to values. -/
def DataStore (V : Type) : Type := String → Option V

/-- The empty dictionary `self.session_data = {}` of `Assistant.__init__`. -/
def emptyData {V : Type} : DataStore V := fun _ => none

/-- `Assistant.set_data(key, value)` (src/agent.py:49-51): dictionary assignment. -/
def set_data {V : Type} (d : DataStore V) (key : String) (value : V) : DataStore V :=
  fun k => if k = key then some value else d k

/-- `Assistant.get_data(key, default)` (src/agent.py:53-55):
`self.session_data.get(key, default)`; the Python default of `default` is `None`,
modelled by passing `none`. -/
def get_data {V : Type} (d : DataStore V) (key : String) (default : Option V) : Option V :=
  match d key with
  | some v => some v
  | none => default

/-! ### `VoiceAssistantApp._create_tts_engine` (src/_agent3.py:71-100) -/

/-- Python truthiness of an `os.environ.get` result: `None` and `""` are falsy. -/
def strTruthy : Option String → Bool
  | none => false
  | some s => s ≠ ""

/-- `VoiceAssistantApp._create_tts_engine` (src/_agent3.py:71-100) reduced to its
credential check: reads `ELEVENLABS_API_KEY`; when the value is falsy it logs and
raises `ValueError` before any engine is built, otherwise it returns the key the
engine is configured with.  It runs during agent construction at session start. -/
def create_tts_engine (getenv : String → Option String) : Except String String :=
  match getenv "ELEVENLABS_API_KEY" with
  | some k => if k ≠ "" then Except.ok k else Except.error "API key de ElevenLabs es requerida"
  | none => Except.error "API key de ElevenLabs es requerida"

/-! ### The turn pipeline and barge-in

Modelled from the spec: the TurnPipeline state machine of sections 4.1 and 8 is
implemented by the external `livekit.agents` `AgentSession` (src/agent.py:170-187
only constructs and starts it), so its states and transitions are embedded from the
specification's words. -/

/-- Modelled from the spec: the phases of the TurnPipeline state machine
`Idle → Listening → Transcribing → Reasoning → Synthesizing → Speaking`. -/
inductive Phase where
  | Idle | Listening | Transcribing | Reasoning | Synthesizing | Speaking
  deriving DecidableEq, Repr

/-- Modelled from the spec: the pipeline's state — its phase, the index of the
current turn, and the synthesized audio chunks queued for playback, each tagged
with the turn that produced it. -/
structure PipelineState where
  phase : Phase
  turn : Nat
  queued : List (Nat × Nat)
  deriving DecidableEq, Repr

/-- Modelled from the spec: the inputs driving the pipeline — turn-boundary and
engine-completion events, synthesized chunks arriving, playback ticks delivering
queued audio to the transport, voice-activity detection, and turn completion. -/
inductive PipelineInput where
  | turnBoundary
  | transcriptReady
  | responseText
  | chunkReady (chunk : Nat)
  | startSpeaking
  | playbackTick
  | vadActivity
  | turnDone
  deriving DecidableEq, Repr

/-- Modelled from the spec: one transition of the TurnPipeline.  Returns the next
state and the chunk delivered to the transport, if any.  Barge-in is the
`(Speaking, vadActivity)` arm: cancel playback, discard the queued audio of the
interrupted turn, start a fresh turn and return to Listening; no chunk is delivered. -/
def pipelineStep (s : PipelineState) (i : PipelineInput) : PipelineState × Option (Nat × Nat) :=
  match s.phase, i with
  | Phase.Idle, PipelineInput.vadActivity =>
      ({ s with phase := Phase.Listening }, none)
  | Phase.Listening, PipelineInput.turnBoundary =>
      ({ s with phase := Phase.Transcribing }, none)
  | Phase.Transcribing, PipelineInput.transcriptReady =>
      ({ s with phase := Phase.Reasoning }, none)
  | Phase.Reasoning, PipelineInput.responseText =>
      ({ s with phase := Phase.Synthesizing }, none)
  | Phase.Synthesizing, PipelineInput.chunkReady c =>
      ({ s with queued := s.queued ++ [(s.turn, c)] }, none)
  | Phase.Synthesizing, PipelineInput.startSpeaking =>
      ({ s with phase := Phase.Speaking }, none)
  | Phase.Speaking, PipelineInput.chunkReady c =>
      ({ s with queued := s.queued ++ [(s.turn, c)] }, none)
  | Phase.Speaking, PipelineInput.playbackTick =>
      match s.queued with
      | [] => (s, none)
      | d :: rest => ({ s with queued := rest }, some d)
  | Phase.Speaking, PipelineInput.vadActivity =>
      ({ phase := Phase.Listening, turn := s.turn + 1, queued := [] }, none)
  | Phase.Speaking, PipelineInput.turnDone =>
      ({ phase := Phase.Idle, turn := s.turn + 1, queued := [] }, none)
  | _, _ => (s, none)

/-- Modelled from the spec: run the pipeline over a list of inputs, collecting the
chunks delivered to the transport in order. -/
def pipelineRun (s : PipelineState) : List PipelineInput → PipelineState × List (Nat × Nat)
  | [] => (s, [])
  | i :: is =>
      let p := pipelineStep s i
      let q := pipelineRun p.1 is
      (q.1, p.2.toList ++ q.2)

/-- Modelled from the spec: the pipeline's queue invariant — every queued chunk
belongs to the current turn (chunks of finished or interrupted turns are discarded). -/
def pipelineInv (s : PipelineState) : Bool :=
  s.queued.all fun d => d.1 = s.turn

/-! ### Helper observers and concrete inputs -/

/-- Number of occurrences of one event in a trace. -/
def countEv : List Event → Event → Nat
  | [], _ => 0
  | x :: xs, e => (if x = e then 1 else 0) + countEv xs e

/-- Number of transfer requests dispatched in a trace. -/
def countRequests : List Event → Nat
  | [] => 0
  | Event.transferRequest _ _ _ _ :: xs => 1 + countRequests xs
  | _ :: xs => countRequests xs

/-- Number of telephony-client constructions in a trace. -/
def countConstructs : List Event → Nat
  | [] => 0
  | Event.constructClient _ _ _ :: xs => 1 + countConstructs xs
  | _ :: xs => countConstructs xs

/-- The environment-variable reads of a trace, in order. -/
def readEnvEvents (evs : List Event) : List Event :=
  evs.filter fun e =>
    match e with
    | Event.readEnv _ => true
    | _ => false

/-- Whether an `Except` computation completed without raising. -/
def exceptOk : Except String String → Bool
  | Except.ok _ => true
  | Except.error _ => false

/-- Modelled from the spec: the `TransferOutcome` of the data model,
one of Success or Failed(reason). -/
inductive TransferOutcome where
  | Success
  | Failed (reason : String)
  deriving DecidableEq, Repr

/-- Modelled from the spec: the `TransferOutcome` resolved by one execution of the
transfer operation, read off the run — Failed(reason) exactly when the except
handler caught an exception, Success otherwise. -/
def outcomeOfRun (r : RunResult) : TransferOutcome :=
  match r.caught with
  | some reason => TransferOutcome.Failed reason
  | none => TransferOutcome.Success

/-- A concrete already-constructed telephony client. -/
def client0 : LiveKitClient :=
  { url := some "wss://lk.example", apiKey := some "key", apiSecret := some "secret" }

/-- A concrete session state whose client handle is already cached. -/
def udCached : UserData :=
  { livekit_api := some client0, roomName := "room-1", selected_department := none }

/-- A concrete session state with no cached client handle. -/
def udFresh : UserData :=
  { livekit_api := none, roomName := "room-1", selected_department := none }

/-- A concrete environment in which both external calls succeed. -/
def envOk : Env :=
  { getenv := fun _ => some "value", constructRaises := none, transferRaises := none }

/-- A concrete environment in which the transfer dispatch raises. -/
def envBoom : Env :=
  { getenv := fun _ => some "value", constructRaises := none, transferRaises := some "boom" }

/-- A concrete pipeline state in the Speaking phase with two queued chunks of turn 0. -/
def sSpk : PipelineState :=
  { phase := Phase.Speaking, turn := 0, queued := [(0, 1), (0, 2)] }

/-- A concrete input sequence driving a full fresh turn after a barge-in. -/
def insDemo : List PipelineInput :=
  [PipelineInput.turnBoundary, PipelineInput.transcriptReady, PipelineInput.responseText,
   PipelineInput.chunkReady 7, PipelineInput.startSpeaking, PipelineInput.playbackTick,
   PipelineInput.playbackTick]

/-! ## Claims -/

/-- Claim C1 (code bug): the spec requires `Assistant` to expose an invocable
registered tool named `transfer_call`, but the class body of `Assistant` defines
`transfer_call` twice — the `@function_tool()` one-argument version at line 57 and
the plain two-argument SIP method at line 88 — and Python's class-body semantics make
the later binding overwrite the earlier one, so the surviving attribute is the plain
two-argument method without the `function_tool` marker and the class registers no
tool at all: the reasoning engine can never invoke the transfer. -/
theorem C1_transfer_tool_shadowed :
    lookupMethod assistantClassDict "transfer_call" =
      some { name := "transfer_call", isFunctionTool := false, arity := 2 } ∧
    registeredToolNames assistantClassDict = [] := by
  constructor <;> rfl

/-- Claim C4: every run of `_handle_transfer` first speaks the announcement naming
the department and asking the caller to stay on the line, then sleeps exactly 6
seconds, and only then runs the dial step: any transfer request in the trace sits at
position 2 or later. -/
theorem C4_announce_wait_dial (env : Env) (ud : UserData)
    (identity transferNumber department : String) :
    (handle_transfer env ud identity transferNumber department).2.head? =
      some (Event.generateReply (announcementText department)) ∧
    (handle_transfer env ud identity transferNumber department).2.get? 1 =
      some (Event.sleep 6) ∧
    announcementText department =
      "En un momento sera transferido al deparamento de " ++ department
        ++ ". Por favor, no cuelgue la llamada." ∧
    countRequests ((handle_transfer env ud identity transferNumber department).2.take 2) = 0 ∧
    (handle_transfer env ud identity transferNumber department).2.drop 2 =
      (transfer_call env ud identity transferNumber).events :=
  ⟨rfl, rfl, rfl, rfl, rfl⟩

/-- Claim C8: one execution of the SIP `transfer_call` dispatches at most one
telephony transfer request — in particular there is no automatic retry when the
control API raises. -/
theorem C8_at_most_one_request (env : Env) (ud : UserData) (pid tto : String) :
    countRequests (transfer_call env ud pid tto).events ≤ 1 := by
  rcases hc : ud.livekit_api with _ | c <;>
    rcases hcr : env.constructRaises with _ | r <;>
      rcases htr : env.transferRaises with _ | r' <;>
        simp [transfer_call, transferTry, transferDispatch, hc, hcr, htr, countRequests]

/-- Claim C10: the session data store satisfies the read-after-write laws —
`get_data` after `set_data` of the same key returns the written value, writes to a
different key do not disturb it, a never-set key returns the default (None when the
default is omitted), and a second write to the same key overwrites the first. -/
theorem C10_data_store (V : Type) (d : DataStore V) (k j : String) (v w : V)
    (df : Option V) (hkj : k ≠ j) :
    get_data (set_data d k v) k df = some v ∧
    get_data (set_data (set_data d k v) j w) k df = some v ∧
    get_data (emptyData : DataStore V) k df = df ∧
    get_data (emptyData : DataStore V) k none = none ∧
    get_data (set_data (set_data d k w) k v) k df = some v := by
  refine ⟨?_, ?_, ?_, ?_, ?_⟩ <;> simp [get_data, set_data, emptyData, hkj]

/-- Witness for C10 at the repository's own keys and values. -/
theorem C10_data_store_witness :
    "language" ≠ "start_time" ∧
    (get_data (set_data (emptyData : DataStore String) "language" "es") "language" none =
        some "es" ∧
      get_data (set_data (set_data (emptyData : DataStore String) "language" "es")
          "start_time" "now") "language" none = some "es" ∧
      get_data (emptyData : DataStore String) "language" none = none ∧
      get_data (emptyData : DataStore String) "language" none = none ∧
      get_data (set_data (set_data (emptyData : DataStore String) "language" "en")
          "language" "es") "language" none = some "es") :=
  ⟨by decide, C10_data_store String emptyData "language" "start_time" "es" "now" none
    (by decide)⟩

/-- Claim C2: whenever the try block of the SIP `transfer_call` raises — from the
lazy client construction or from the control API call — the operation logs the
failure, speaks exactly one fallback apology, propagates no exception to its caller,
and emits no session termination. -/
theorem C2_failure_fallback (env : Env) (ud : UserData) (pid tto r : String)
    (h : (transfer_call env ud pid tto).caught = some r) :
    countEv (transfer_call env ud pid tto).events (Event.generateReply fallbackText) = 1 ∧
    Event.logError ("Failed to transfer call: " ++ r) ∈ (transfer_call env ud pid tto).events ∧
    (transfer_call env ud pid tto).raised = none ∧
    Event.terminateSession ∉ (transfer_call env ud pid tto).events := by
  rcases hc : ud.livekit_api with _ | c <;>
    rcases hcr : env.constructRaises with _ | r0 <;>
      rcases htr : env.transferRaises with _ | r1 <;>
        simp_all [transfer_call, transferTry, transferDispatch, countEv]

/-- Witness for C2: with a cached client and a control API that raises "boom", the
run speaks the fallback exactly once, logs the failure, and raises nothing. -/
theorem C2_failure_fallback_witness :
    (transfer_call envBoom udCached "caller" "sip:x").caught = some "boom" ∧
    (countEv (transfer_call envBoom udCached "caller" "sip:x").events
        (Event.generateReply fallbackText) = 1 ∧
      Event.logError ("Failed to transfer call: " ++ "boom") ∈
        (transfer_call envBoom udCached "caller" "sip:x").events ∧
      (transfer_call envBoom udCached "caller" "sip:x").raised = none ∧
      Event.terminateSession ∉ (transfer_call envBoom udCached "caller" "sip:x").events) :=
  ⟨rfl, C2_failure_fallback envBoom udCached "caller" "sip:x" "boom" rfl⟩

/-- Counterexample to claim C3 as stated: a successful run and a failed run of the
SIP `transfer_call` resolve different outcomes, yet the result the Python caller
receives — the return value (always None) and the escaping exception (always none) —
is identical in both runs, so the caller cannot distinguish success from failure by
the operation's result. -/
theorem C3_result_indistinguishable :
    outcomeOfRun (transfer_call envOk udCached "caller" "sip:x") = TransferOutcome.Success ∧
    outcomeOfRun (transfer_call envBoom udCached "caller" "sip:x") =
      TransferOutcome.Failed "boom" ∧
    (transfer_call envOk udCached "caller" "sip:x").raised =
      (transfer_call envBoom udCached "caller" "sip:x").raised ∧
    (transfer_call envOk udCached "caller" "sip:x").retval =
      (transfer_call envBoom udCached "caller" "sip:x").retval :=
  ⟨rfl, rfl, rfl, rfl⟩

/-- Claim C3 as amended: every execution resolves exactly one outcome — Success with
no fallback apology, or Failed(reason) with exactly one fallback apology — but the
operation returns None and propagates no exception either way, so the outcome is
observable only through the emitted effects, not through the returned result. -/
theorem C3_exactly_one_outcome (env : Env) (ud : UserData) (pid tto : String) :
    ((outcomeOfRun (transfer_call env ud pid tto) = TransferOutcome.Success ∧
        countEv (transfer_call env ud pid tto).events (Event.generateReply fallbackText) = 0) ∨
      (∃ reason,
        outcomeOfRun (transfer_call env ud pid tto) = TransferOutcome.Failed reason ∧
        countEv (transfer_call env ud pid tto).events (Event.generateReply fallbackText) = 1)) ∧
    (transfer_call env ud pid tto).raised = none ∧
    (transfer_call env ud pid tto).retval = () := by
  rcases hc : ud.livekit_api with _ | c <;>
    rcases hcr : env.constructRaises with _ | r0 <;>
      rcases htr : env.transferRaises with _ | r1 <;>
        simp [transfer_call, transferTry, transferDispatch, outcomeOfRun, countEv,
          hc, hcr, htr]

/-- Claim C5: every transfer request the SIP `transfer_call` dispatches carries
exactly the participant identity it was invoked with, the session's room name, the
destination it was invoked with, and the dial-tone flag set to true. -/
theorem C5_request_fields (env : Env) (ud : UserData) (pid tto a b c : String) (pd : Bool)
    (h : Event.transferRequest a b c pd ∈ (transfer_call env ud pid tto).events) :
    a = pid ∧ b = ud.roomName ∧ c = tto ∧ pd = true := by
  rcases hc : ud.livekit_api with _ | cc <;>
    rcases hcr : env.constructRaises with _ | r0 <;>
      rcases htr : env.transferRaises with _ | r1 <;>
        simp [transfer_call, transferTry, transferDispatch, hc, hcr, htr] at h <;>
          exact h

/-- Witness for C5 on a concrete successful run. -/
theorem C5_request_fields_witness :
    Event.transferRequest "caller" "room-1" "sip:x" true ∈
      (transfer_call envOk udCached "caller" "sip:x").events ∧
    ("caller" = "caller" ∧ "room-1" = udCached.roomName ∧ "sip:x" = "sip:x" ∧
      true = true) :=
  ⟨by decide,
    C5_request_fields envOk udCached "caller" "sip:x" "caller" "room-1" "sip:x" true
      (by decide)⟩

/-- Claim C6: the telephony client handle is created at most once per session and
cached on the session's userdata.  First conjunct, for an arbitrary state: a single
run constructs a client exactly when the cached handle is absent and construction
succeeds, and then caches precisely the constructed client; with a cached handle it
constructs nothing and leaves the handle unchanged, and a failed construction leaves
the handle absent.  Remaining conjuncts, the session lifecycle: a run from a state
with no cached handle constructs exactly one client and caches it, and the
subsequent invocation constructs nothing and reuses the cached handle unchanged. -/
theorem C6_lazy_client (env env' : Env) (ud ud2 : UserData) (pid tto pid' tto' : String)
    (hud : ud.livekit_api = none) (hcr : env.constructRaises = none) :
    ((transfer_call env' ud2 pid' tto').userdata.livekit_api,
        countConstructs (transfer_call env' ud2 pid' tto').events) =
      (match ud2.livekit_api, env'.constructRaises with
        | some c, _ => (some c, 0)
        | none, some _ => (none, 0)
        | none, none =>
            (some { url := env'.getenv "LIVEKIT_URL",
                    apiKey := env'.getenv "LIVEKIT_API_KEY",
                    apiSecret := env'.getenv "LIVEKIT_API_SECRET" }, 1)) ∧
    countConstructs (transfer_call env ud pid tto).events = 1 ∧
    (transfer_call env ud pid tto).userdata.livekit_api =
      some { url := env.getenv "LIVEKIT_URL", apiKey := env.getenv "LIVEKIT_API_KEY",
             apiSecret := env.getenv "LIVEKIT_API_SECRET" } ∧
    (transfer_call env' (transfer_call env ud pid tto).userdata pid' tto').userdata.livekit_api
      = (transfer_call env ud pid tto).userdata.livekit_api ∧
    countConstructs
      (transfer_call env' (transfer_call env ud pid tto).userdata pid' tto').events = 0 := by
  have key : ∀ (e : Env) (u : UserData) (p t : String) (c : LiveKitClient),
      u.livekit_api = some c →
      (transfer_call e u p t).userdata = u ∧
      countConstructs (transfer_call e u p t).events = 0 := by
    intro e u p t c hu
    rcases htr : e.transferRaises with _ | r1 <;>
      simp [transfer_call, transferTry, transferDispatch, hu, htr, countConstructs]
  refine ⟨?_, ?_⟩
  · rcases hc2 : ud2.livekit_api with _ | c2
    · rcases hcr2 : env'.constructRaises with _ | r0
      · rcases htr2 : env'.transferRaises with _ | r1 <;>
          simp [transfer_call, transferTry, transferDispatch, hc2, hcr2, htr2, countConstructs]
      · simp [transfer_call, transferTry, transferDispatch, hc2, hcr2, countConstructs]
    · obtain ⟨hu, hn⟩ := key env' ud2 pid' tto' c2 hc2
      simp [hu, hn, hc2]
  · have hfirst : (transfer_call env ud pid tto).userdata.livekit_api =
        some { url := env.getenv "LIVEKIT_URL", apiKey := env.getenv "LIVEKIT_API_KEY",
               apiSecret := env.getenv "LIVEKIT_API_SECRET" } ∧
        countConstructs (transfer_call env ud pid tto).events = 1 := by
      rcases htr : env.transferRaises with _ | r1 <;>
        simp [transfer_call, transferTry, transferDispatch, hud, hcr, htr, countConstructs]
    obtain ⟨hcA, hcB⟩ := hfirst
    obtain ⟨h2u, h2n⟩ := key env' (transfer_call env ud pid tto).userdata pid' tto' _ hcA
    exact ⟨hcB, hcA, by rw [h2u], h2n⟩

/-- Witness for C6: from the fresh state a run under `envOk` constructs and caches
exactly one client, the following run with a failing control API constructs nothing
and keeps the handle, and a cached-state run also constructs nothing. -/
theorem C6_lazy_client_witness :
    udFresh.livekit_api = none ∧ envOk.constructRaises = none ∧
    (((transfer_call envBoom udCached "caller2" "sip:y").userdata.livekit_api,
        countConstructs (transfer_call envBoom udCached "caller2" "sip:y").events) =
        (some client0, 0) ∧
      countConstructs (transfer_call envOk udFresh "caller" "sip:x").events = 1 ∧
      (transfer_call envOk udFresh "caller" "sip:x").userdata.livekit_api =
        some { url := some "value", apiKey := some "value", apiSecret := some "value" } ∧
      (transfer_call envBoom (transfer_call envOk udFresh "caller" "sip:x").userdata
          "caller2" "sip:y").userdata.livekit_api =
        (transfer_call envOk udFresh "caller" "sip:x").userdata.livekit_api ∧
      countConstructs
        (transfer_call envBoom (transfer_call envOk udFresh "caller" "sip:x").userdata
          "caller2" "sip:y").events = 0) :=
  ⟨rfl, rfl,
    C6_lazy_client envOk envBoom udFresh udCached "caller" "sip:x" "caller2" "sip:y" rfl rfl⟩

/-- Counterexample to claim C7 as stated: the per-call transfer operation itself
reads the three required LiveKit credentials for the first time when no client is
cached yet — a missing credential is not confined to session/worker start. -/
theorem C7_creds_read_in_call :
    Event.readEnv "LIVEKIT_URL" ∈ (transfer_call envOk udFresh "caller" "sip:x").events ∧
    Event.readEnv "LIVEKIT_API_KEY" ∈ (transfer_call envOk udFresh "caller" "sip:x").events ∧
    Event.readEnv "LIVEKIT_API_SECRET" ∈
      (transfer_call envOk udFresh "caller" "sip:x").events := by
  refine ⟨?_, ?_, ?_⟩ <;> decide

/-- Claim C7 as amended: the LiveKit telephony credentials are read lazily inside the
per-call transfer operation — exactly the three reads on a run with no cached client,
and none on a run with a cached client — while the ELEVENLABS synthesis credential of
src/_agent3.py is validated at session start, where a falsy value raises before any
per-call logic runs. -/
theorem C7_amended_lazy_creds (env : Env) (ud : UserData) (pid tto : String)
    (g : String → Option String) :
    readEnvEvents (transfer_call env ud pid tto).events =
      (match ud.livekit_api with
        | none => [Event.readEnv "LIVEKIT_URL", Event.readEnv "LIVEKIT_API_KEY",
            Event.readEnv "LIVEKIT_API_SECRET"]
        | some _ => []) ∧
    exceptOk (create_tts_engine g) = strTruthy (g "ELEVENLABS_API_KEY") := by
  constructor
  · rcases hc : ud.livekit_api with _ | c <;>
      rcases hcr : env.constructRaises with _ | r0 <;>
        rcases htr : env.transferRaises with _ | r1 <;>
          simp [transfer_call, transferTry, transferDispatch, readEnvEvents, List.filter,
            hc, hcr, htr]
  · rcases hg : g "ELEVENLABS_API_KEY" with _ | k
    · simp [create_tts_engine, exceptOk, strTruthy, hg]
    · by_cases hk : k = "" <;> simp [create_tts_engine, exceptOk, strTruthy, hg, hk]

/-- The pipeline step never decreases the turn counter. -/
theorem pipelineStep_turn_le (s : PipelineState) (i : PipelineInput) :
    s.turn ≤ (pipelineStep s i).1.turn := by
  unfold pipelineStep
  split <;> (try split) <;> first
    | exact Nat.le_refl _
    | exact Nat.le_succ _

/-- The pipeline step preserves the queue invariant. -/
theorem pipelineStep_inv (s : PipelineState) (i : PipelineInput)
    (h : pipelineInv s = true) : pipelineInv (pipelineStep s i).1 = true := by
  unfold pipelineInv at h ⊢
  unfold pipelineStep
  split <;> (try split) <;> simp_all [List.all_append] <;> tauto

/-- Under the queue invariant, any chunk the pipeline step delivers belongs to the
current turn. -/
theorem pipelineStep_delivered (s : PipelineState) (i : PipelineInput) (d : Nat × Nat)
    (h : pipelineInv s = true) (hd : (pipelineStep s i).2 = some d) : d.1 = s.turn := by
  unfold pipelineInv at h
  unfold pipelineStep at hd
  split at hd <;> (try split at hd) <;> simp_all

/-- Under the queue invariant, every chunk delivered along any run carries a turn
index at least the starting turn index. -/
theorem pipelineRun_turn_le (ins : List PipelineInput) :
    ∀ s : PipelineState, pipelineInv s = true →
      ∀ d ∈ (pipelineRun s ins).2, s.turn ≤ d.1 := by
  induction ins with
  | nil =>
      intro s h d hd
      simp [pipelineRun] at hd
  | cons i is ih =>
      intro s h d hd
      simp only [pipelineRun, List.mem_append] at hd
      rcases hd with hd | hd
      · rcases ho : (pipelineStep s i).2 with _ | d'
        · rw [ho] at hd; simp at hd
        · rw [ho] at hd; simp at hd
          have hdel := pipelineStep_delivered s i d' h ho
          rw [hd, hdel]
      · have hinv := pipelineStep_inv s i h
        have h1 := ih (pipelineStep s i).1 hinv d hd
        have h2 := pipelineStep_turn_le s i
        omega

/-- Claim C9 (modelled from the spec, since the turn pipeline is implemented by the
external AgentSession that src/agent.py merely constructs): when voice activity is
detected while the pipeline is Speaking, the step delivers nothing, transitions to
Listening, discards the queued audio of the interrupted turn, and no chunk of the
interrupted turn is ever delivered to the transport along any subsequent run. -/
theorem C9_barge_in (s : PipelineState) (ins : List PipelineInput)
    (hphase : s.phase = Phase.Speaking) :
    (pipelineStep s PipelineInput.vadActivity).2 = none ∧
    (pipelineStep s PipelineInput.vadActivity).1.phase = Phase.Listening ∧
    (pipelineStep s PipelineInput.vadActivity).1.queued = [] ∧
    ((pipelineRun (pipelineStep s PipelineInput.vadActivity).1 ins).2.all
        fun d => d.1 != s.turn) = true := by
  obtain ⟨ph, t, q⟩ := s
  obtain rfl : ph = Phase.Speaking := hphase
  refine ⟨rfl, rfl, rfl, ?_⟩
  simp only [List.all_eq_true, bne_iff_ne, ne_eq]
  intro d hd
  have h2 : t + 1 ≤ d.1 :=
    pipelineRun_turn_le ins { phase := Phase.Listening, turn := t + 1, queued := [] } rfl d hd
  omega

/-- Witness for C9 on a concrete Speaking state with queued chunks of turn 0 and a
full fresh turn after the barge-in. -/
theorem C9_barge_in_witness :
    sSpk.phase = Phase.Speaking ∧
    ((pipelineStep sSpk PipelineInput.vadActivity).2 = none ∧
      (pipelineStep sSpk PipelineInput.vadActivity).1.phase = Phase.Listening ∧
      (pipelineStep sSpk PipelineInput.vadActivity).1.queued = [] ∧
      ((pipelineRun (pipelineStep sSpk PipelineInput.vadActivity).1 insDemo).2.all
          fun d => d.1 != sSpk.turn) = true) :=
  ⟨by decide, C9_barge_in sSpk insDemo (by decide)⟩
